import Mathlib

set_option maxRecDepth 40000

/-!
Verification development for the hybrid chatbot (chatbot.py).

The Python module is shallowly embedded below.  The external HTTP
collaborators (Wikipedia opensearch and page-summary endpoints) are
modelled by a `Net` record of response functions: `none` stands for any
exception raised during the request (network error, timeout, HTTP error
status via raise_for_status, malformed JSON), while `some` carries the
parsed payload.  The module-level mutable `CACHE` dict is modelled as an
association list threaded through a state record `St`, which also counts
how many remote requests each collaborator has received (the counters are
pure instrumentation placed exactly at the `requests.get` call sites).
Regex matching is modelled over ASCII case folding, which covers all
patterns appearing in the source.
-/

namespace Chatbot

/-- Python `str.strip` / regex `\s` whitespace class (ASCII part). -/
def isPySpace (c : Char) : Bool :=
  c == ' ' || c == '\t' || c == '\n' || c == '\r' || c == '\x0b' || c == '\x0c'

/-- Regex word character `\w` (ASCII part): letter, digit or underscore. -/
def wordChar (c : Char) : Bool :=
  c.isAlpha || c.isDigit || c == '_'

/-- Case folding used for matching with `re.I` (ASCII). -/
def lower (l : List Char) : List Char := l.map Char.toLower

/-- Python `str.strip()` on a character list. -/
def pyStripL (l : List Char) : List Char :=
  ((l.dropWhile isPySpace).reverse.dropWhile isPySpace).reverse

/-- Python `str.strip()` on a string. -/
def pyStripS (s : String) : String := String.mk (pyStripL s.data)

/-- Word boundary `\b` test on the character preceding a match position. -/
def boundaryOk : Option Char → Bool
  | none => true
  | some c => !wordChar c

/-- Word boundary `\b` test on the text following a match. -/
def endBoundaryOk : List Char → Bool
  | [] => true
  | c :: _ => !wordChar c

/-- Does one of the alternatives match at the current position?  `needB`
and `needE` say whether the pattern carries a `\b` before and after the
alternation group. -/
def matchHere (needB needE : Bool) (alts : List (List Char))
    (prev : Option Char) (s : List Char) : Bool :=
  alts.any fun w =>
    (!needB || boundaryOk prev) && w.isPrefixOf s &&
      (!needE || endBoundaryOk (s.drop w.length))

/-- Scan every position of the text, keeping the previous character for
the boundary test: the model of `pattern.search(text)`. -/
def searchFrom (needB needE : Bool) (alts : List (List Char)) :
    Option Char → List Char → Bool
  | prev, [] => matchHere needB needE alts prev []
  | prev, c :: rest =>
    matchHere needB needE alts prev (c :: rest) ||
      searchFrom needB needE alts (some c) rest

/-- Model of `re.compile(..., re.I).search(text)` for the patterns of the
source: an alternation of literal words, optionally guarded by `\b`. -/
def reSearch (needB needE : Bool) (alts : List (List Char))
    (text : List Char) : Bool :=
  searchFrom needB needE alts none text

/-- One entry of the `SMALL_TALK` table. -/
structure Rule where
  name : String
  matcher : String → Bool
  replies : List String

/-- Matcher for a pattern of the shape `\b(w1|w2|...)\b` with `re.I`. -/
def wordsMatcher (alts : List String) (s : String) : Bool :=
  reSearch true true (alts.map String.data) (lower s.data)

def r_greeting : Rule :=
  { name := "greeting"
  , matcher := wordsMatcher ["hi", "hello", "hey", "hiya", "hlo"]
  , replies := ["Hi!", "Hello ðŸ‘‹", "Hey! Kaise ho?"] }

def r_howare : Rule :=
  { name := "howare"
  , matcher := wordsMatcher
      ["how are you", "how r u", "how\x27re you", "how are u",
       "kaise ho", "kya haal"]
  , replies := ["Main theek hoon, thank you! Aap kaise ho?",
                "Doing well â€” aap batao, kaise ho?"] }

def r_imfine : Rule :=
  { name := "imfine"
  , matcher := wordsMatcher
      ["i am fine", "i\x27m fine", "main theek hoon", "mai theek hu",
       "mai thik hu"]
  , replies := ["Achha! Khushi hui sunke ðŸ˜Š",
                "Great! Batao aur kuch puchna hai?"] }

def r_thanks : Rule :=
  { name := "thanks"
  , matcher := wordsMatcher ["thanks", "thank you", "thx", "shukriya"]
  , replies := ["Aapka swagat hai!", "No problem!"] }

def r_farewell : Rule :=
  { name := "farewell"
  , matcher := wordsMatcher ["bye", "goodbye", "see ya", "exit", "quit", "alvida"]
  , replies := ["Goodbye! ðŸ˜Š", "See you later!"] }

def r_help : Rule :=
  { name := "help"
  , matcher := fun s =>
      reSearch true false (["help"].map String.data) (lower s.data) ||
        reSearch false true (["commands"].map String.data) (lower s.data)
  , replies := ["Aap simple questions pooch sakte hain like \x27photosynthesis\x27, \x27who is albert einstein\x27, ya normal chitchat (hello/how are you)."] }

/-- The `SMALL_TALK` dict in its (insertion-preserving) declared order. -/
def SMALL_TALK : List Rule :=
  [r_greeting, r_howare, r_imfine, r_thanks, r_farewell, r_help]

/-- `check_small_talk`: first rule in declared order whose pattern
matches the text, returning its first reply. -/
def check_small_talk (text : String) : Option String :=
  (SMALL_TALK.find? fun r => r.matcher text).map fun r => r.replies.headD ""

/-- One value of the `CACHE` dict: the optional `"title"` and
`"summary"` fields of the per-key sub-dict. -/
structure Entry where
  title? : Option String
  summary? : Option String
  deriving DecidableEq

/-- The `CACHE` dict, as an association list keyed by string. -/
abbrev Cache := List (String × Entry)

/-- Dictionary lookup in the cache. -/
def cacheFind? : Cache → String → Option Entry
  | [], _ => none
  | (k, e) :: rest, q => if k = q then some e else cacheFind? rest q

/-- The `"title"` field stored under a key, when present. -/
def titleOf (c : Cache) (k : String) : Option String :=
  (cacheFind? c k).bind fun e => e.title?

/-- The `"summary"` field stored under a key, when present. -/
def summaryOf (c : Cache) (k : String) : Option String :=
  (cacheFind? c k).bind fun e => e.summary?

/-- `CACHE.setdefault(q, \x7b\x7d)["title"] = t`: update the title field of
the entry under `q`, creating the entry if absent, keeping its summary. -/
def setTitle : Cache → String → String → Cache
  | [], q, t => [(q, ⟨some t, none⟩)]
  | (k, e) :: rest, q, t =>
    if k = q then (k, ⟨some t, e.summary?⟩) :: rest
    else (k, e) :: setTitle rest q t

/-- `CACHE.setdefault(t, \x7b\x7d)["summary"] = s`: update the summary field
of the entry under `t`, creating the entry if absent, keeping its title. -/
def setSummary : Cache → String → String → Cache
  | [], q, s => [(q, ⟨none, some s⟩)]
  | (k, e) :: rest, q, s =>
    if k = q then (k, ⟨e.title?, some s⟩) :: rest
    else (k, e) :: setSummary rest q s

/-- The two external collaborators.  `search q` models the opensearch
request for `q`: `none` is any raised exception, `some titles` is the
title list `data[1]` of a parsed response.  `summary t` models the
page-summary request for title `t`: the outer `none` is any raised
exception, the inner option is `data.get("extract")`. -/
structure Net where
  search : String → Option (List String)
  summary : String → Option (Option String)

/-- Program state: the cache plus instrumentation counters recording how
many requests each collaborator has received. -/
structure St where
  cache : Cache
  searchCalls : Nat
  summaryCalls : Nat
  deriving DecidableEq

/-- State at process start: empty cache, no remote call issued yet. -/
def initSt : St := ⟨[], 0, 0⟩

/-- `wiki_search_first_title(query)`: first matching page title or None,
consulting the cache first and caching a resolved title. -/
def wiki_search_first_title (net : Net) (st : St) (query : String) :
    Option String × St :=
  if pyStripS query = "" then (none, st)
  else
    match titleOf st.cache (pyStripS query) with
    | some t => (some t, st)
    | none =>
      match net.search (pyStripS query) with
      | none => (none, ⟨st.cache, st.searchCalls + 1, st.summaryCalls⟩)
      | some [] => (none, ⟨st.cache, st.searchCalls + 1, st.summaryCalls⟩)
      | some (t :: _) =>
        (some t,
         ⟨setTitle st.cache (pyStripS query) t, st.searchCalls + 1,
          st.summaryCalls⟩)

/-- `wiki_get_summary(title)`: short summary text or None, consulting the
cache first and caching a fetched summary.  The `if summary:` truthiness
test in the source rejects both a missing extract and an empty one. -/
def wiki_get_summary (net : Net) (st : St) (title : String) :
    Option String × St :=
  if title = "" then (none, st)
  else
    match summaryOf st.cache title with
    | some s => (some s, st)
    | none =>
      match net.summary title with
      | none => (none, ⟨st.cache, st.searchCalls, st.summaryCalls + 1⟩)
      | some none => (none, ⟨st.cache, st.searchCalls, st.summaryCalls + 1⟩)
      | some (some s) =>
        if s = "" then (none, ⟨st.cache, st.searchCalls, st.summaryCalls + 1⟩)
        else
          (some s,
           ⟨setSummary st.cache title s, st.searchCalls,
            st.summaryCalls + 1⟩)

/-- Does the previous character of the text trigger a sentence split,
i.e. satisfy the lookbehind `(?<=[.?!])`? -/
def isTrigger : Option Char → Bool
  | some c => c == '.' || c == '?' || c == '!'
  | none => false

/-- Model of `re.split(r"(?<=[.?!])\s+", text)`: a maximal whitespace
run immediately preceded by `.`, `?` or `!` separates two segments.
The flag says whether we are inside such a run; the accumulator holds
the current segment reversed (its head is the previous character). -/
def splitSentAux : Bool → List Char → List Char → List (List Char)
  | _, acc, [] => [acc.reverse]
  | inD, acc, c :: rest =>
    if isPySpace c then
      if inD then splitSentAux true acc rest
      else if isTrigger acc.head? then acc.reverse :: splitSentAux true [] rest
      else splitSentAux false (c :: acc) rest
    else splitSentAux false (c :: acc) rest

/-- Sentence segmentation of a text. -/
def splitSentences (l : List Char) : List (List Char) :=
  splitSentAux false [] l

/-- `short_sentences(text, max_sentences)`: first `maxSentences`
sentences of the stripped text, joined with one space and stripped. -/
def short_sentences (text : String) (maxSentences : Nat) : String :=
  let parts := splitSentences (pyStripL text.data)
  if parts.isEmpty then text
  else pyStripS (String.intercalate " " ((parts.take maxSentences).map String.mk))

/-- UTF-8 encoding of a code point, as byte values. -/
def utf8Bytes (n : Nat) : List Nat :=
  if n < 128 then [n]
  else if n < 2048 then [192 + n / 64, 128 + n % 64]
  else if n < 65536 then [224 + n / 4096, 128 + n / 64 % 64, 128 + n % 64]
  else [240 + n / 262144, 128 + n / 4096 % 64, 128 + n / 64 % 64, 128 + n % 64]

/-- Uppercase hexadecimal digit. -/
def hexUpper (n : Nat) : Char :=
  if n < 10 then Char.ofNat (48 + n) else Char.ofNat (55 + n)

/-- `%XX` escape of one byte. -/
def pctEncodeByte (b : Nat) : List Char :=
  ['%', hexUpper (b / 16), hexUpper (b % 16)]

/-- Characters `urllib.parse.quote` leaves unescaped: its always-safe
set (ASCII letters, digits, `_.-~`) plus the `safe` argument. -/
def isQuoteSafe (safe : List Char) (c : Char) : Bool :=
  c.isAlpha || c.isDigit || c == '_' || c == '.' || c == '-' || c == '~' ||
    safe.contains c

/-- Percent-encode a character list as `urllib.parse.quote` does. -/
def quoteChars (safe : List Char) : List Char → List Char
  | [] => []
  | c :: rest =>
    (if isQuoteSafe safe c then [c]
     else (utf8Bytes c.toNat).foldr (fun b a => pctEncodeByte b ++ a) []) ++
      quoteChars safe rest

/-- `urllib.parse.quote(s, safe)`. -/
def pyQuote (safe : List Char) (s : String) : String :=
  String.mk (quoteChars safe s.data)

/-- `title.replace(" ", "_")`: the pattern is a single character, so the
replacement is a character map. -/
def underscoreSpaces (t : String) : String :=
  String.mk (t.data.map fun c => if c = ' ' then '_' else c)

/-- The reference link built in `answer_query` for a resolved title:
spaces replaced by underscores, percent-encoded with the default safe
set of `urllib.parse.quote`, appended to the article URL prefix. -/
def mkLink (title : String) : String :=
  "https://en.wikipedia.org/wiki/" ++ pyQuote ['/'] (underscoreSpaces title)

/-- Reply for empty input. -/
def MSG_EMPTY : String := "Kuch type karo, main madad karunga."

/-- The em-dash of the source file (it appears there in mojibake form,
as the three code points below). -/
def EMD : String := "â€”"

/-- Reply when no title was resolved. -/
def MSG_NOMATCH : String :=
  "Maaf kijiye " ++ EMD ++ " mujhe Wikipedia par match nahi mila. " ++
    "Aap query thoda badal ke try kar sakte hain (e.g., \x27photosynthesis\x27 ya \x27who is sachin tendulkar\x27)."

/-- Formatted reply when a title and a summary were obtained. -/
def successMsg (title short link : String) : String :=
  "**" ++ title ++ "**\n" ++ short ++ "\n\nAgar aur padhna ho: " ++ link

/-- Reply when a title was resolved but no summary was obtained. -/
def fallbackMsg (title link : String) : String :=
  "Maine ek page dhoondh liya: " ++ title ++ " " ++ EMD ++
    " lekin short summary fetch nahi hui.\n" ++
    "Aap full article yahan dekh sakte hain: " ++ link

/-- `answer_query(user_input)`: the respond operation of the Lookup
Responder. -/
def answer_query (net : Net) (st : St) (userInput : String) : String × St :=
  if pyStripS userInput = "" then (MSG_EMPTY, st)
  else
    match check_small_talk (pyStripS userInput) with
    | some r => (r, st)
    | none =>
      match wiki_search_first_title net st (pyStripS userInput) with
      | (none, st1) => (MSG_NOMATCH, st1)
      | (some title, st1) =>
        match wiki_get_summary net st1 title with
        | (some summary, st2) =>
          (successMsg title (short_sentences summary 2) (mkLink title), st2)
        | (none, st2) => (fallbackMsg title (mkLink title), st2)

/-- A network on which every request raises. -/
def failNet : Net := ⟨fun _ => none, fun _ => none⟩

/-- A network that resolves every query to the given title and returns
the given extract for every summary request. -/
def okNet (t s : String) : Net := ⟨fun _ => some [t], fun _ => some (some s)⟩

/-- A network whose search works but whose summary endpoint raises. -/
def downSummaryNet (t : String) : Net := ⟨fun _ => some [t], fun _ => none⟩

/-! ### Stripping is idempotent -/

lemma not_head_dropWhile (p : Char → Bool) :
    ∀ (l : List Char) (a : Char) (t : List Char),
      List.dropWhile p l = a :: t → p a = false := by
  intro l
  induction l with
  | nil => intro a t h; simp [List.dropWhile] at h
  | cons c cs ih =>
    intro a t h
    rw [List.dropWhile_cons] at h
    by_cases hc : p c
    · rw [if_pos hc] at h; exact ih a t h
    · rw [if_neg hc] at h
      cases h
      simpa using hc

lemma dropWhile_rdropWhile_dropWhile (p : Char → Bool) (l : List Char) :
    List.dropWhile p (List.rdropWhile p (List.dropWhile p l)) =
      List.rdropWhile p (List.dropWhile p l) := by
  cases hk : List.rdropWhile p (List.dropWhile p l) with
  | nil => simp
  | cons a t =>
    have hpref : a :: t <+: List.dropWhile p l := by
      rw [← hk]; exact List.rdropWhile_prefix p _
    obtain ⟨rest, hrest⟩ := hpref
    have ha : p a = false :=
      not_head_dropWhile p l a (t ++ rest) (by rw [← hrest]; rfl)
    rw [List.dropWhile_cons, if_neg (by simp [ha])]

lemma pyStripL_eq_rdrop (l : List Char) :
    pyStripL l = List.rdropWhile isPySpace (List.dropWhile isPySpace l) := rfl

lemma pyStripL_idem (l : List Char) : pyStripL (pyStripL l) = pyStripL l := by
  rw [pyStripL_eq_rdrop, pyStripL_eq_rdrop, dropWhile_rdropWhile_dropWhile,
    List.rdropWhile_idempotent, ← pyStripL_eq_rdrop]

lemma pyStripS_idem (s : String) : pyStripS (pyStripS s) = pyStripS s := by
  show String.mk (pyStripL (pyStripL s.data)) = String.mk (pyStripL s.data)
  exact congrArg String.mk (pyStripL_idem s.data)

/-! ### Cache update lemmas -/

lemma titleOf_setTitle_self (c : Cache) (q t : String) :
    titleOf (setTitle c q t) q = some t := by
  induction c with
  | nil => simp [setTitle, titleOf, cacheFind?]
  | cons kv rest ih =>
    obtain ⟨k, e⟩ := kv
    by_cases h : k = q
    · simp [setTitle, h, titleOf, cacheFind?]
    · simpa [setTitle, h, titleOf, cacheFind?] using ih

lemma cacheFind?_setTitle_ne (c : Cache) (q t k : String) (h : k ≠ q) :
    cacheFind? (setTitle c q t) k = cacheFind? c k := by
  induction c with
  | nil => simp [setTitle, cacheFind?, Ne.symm h]
  | cons kv rest ih =>
    obtain ⟨k2, e⟩ := kv
    by_cases h2 : k2 = q
    · subst h2
      simp [setTitle, cacheFind?, Ne.symm h]
    · by_cases h3 : k2 = k
      · subst h3; simp [setTitle, h2, cacheFind?]
      · simp [setTitle, h2, cacheFind?, h3, ih]

lemma summaryOf_setTitle (c : Cache) (q t k : String) :
    summaryOf (setTitle c q t) k = summaryOf c k := by
  induction c with
  | nil =>
    by_cases h : q = k <;> simp [setTitle, summaryOf, cacheFind?, h]
  | cons kv rest ih =>
    obtain ⟨k2, e⟩ := kv
    by_cases h2 : k2 = q
    · subst h2
      by_cases h3 : k2 = k <;> simp [setTitle, summaryOf, cacheFind?, h3]
    · by_cases h3 : k2 = k
      · subst h3; simp [setTitle, h2, summaryOf, cacheFind?]
      · simpa [setTitle, h2, summaryOf, cacheFind?, h3] using ih

lemma summaryOf_setSummary_self (c : Cache) (q s : String) :
    summaryOf (setSummary c q s) q = some s := by
  induction c with
  | nil => simp [setSummary, summaryOf, cacheFind?]
  | cons kv rest ih =>
    obtain ⟨k, e⟩ := kv
    by_cases h : k = q
    · simp [setSummary, h, summaryOf, cacheFind?]
    · simpa [setSummary, h, summaryOf, cacheFind?] using ih

lemma cacheFind?_setSummary_ne (c : Cache) (q s k : String) (h : k ≠ q) :
    cacheFind? (setSummary c q s) k = cacheFind? c k := by
  induction c with
  | nil => simp [setSummary, cacheFind?, Ne.symm h]
  | cons kv rest ih =>
    obtain ⟨k2, e⟩ := kv
    by_cases h2 : k2 = q
    · subst h2
      simp [setSummary, cacheFind?, Ne.symm h]
    · by_cases h3 : k2 = k
      · subst h3; simp [setSummary, h2, cacheFind?]
      · simp [setSummary, h2, cacheFind?, h3, ih]

lemma titleOf_setSummary (c : Cache) (q s k : String) :
    titleOf (setSummary c q s) k = titleOf c k := by
  induction c with
  | nil =>
    by_cases h : q = k <;> simp [setSummary, titleOf, cacheFind?, h]
  | cons kv rest ih =>
    obtain ⟨k2, e⟩ := kv
    by_cases h2 : k2 = q
    · subst h2
      by_cases h3 : k2 = k <;> simp [setSummary, titleOf, cacheFind?, h3]
    · by_cases h3 : k2 = k
      · subst h3; simp [setSummary, h2, titleOf, cacheFind?]
      · simpa [setSummary, h2, titleOf, cacheFind?, h3] using ih

lemma search_cached {net : Net} {st : St} {q t : String}
    (hq : pyStripS q ≠ "") (h : titleOf st.cache (pyStripS q) = some t) :
    wiki_search_first_title net st q = (some t, st) := by
  unfold wiki_search_first_title
  rw [if_neg hq, h]

lemma search_none_state {net : Net} {st : St} {q : String} {st1 : St}
    (h : wiki_search_first_title net st q = (none, st1)) :
    st1.cache = st.cache ∧ st1.summaryCalls = st.summaryCalls := by
  unfold wiki_search_first_title at h
  split at h
  · cases h; exact ⟨rfl, rfl⟩
  · split at h
    · simp at h
    · split at h
      · cases h; exact ⟨rfl, rfl⟩
      · cases h; exact ⟨rfl, rfl⟩
      · simp at h

lemma search_some_title {net : Net} {st : St} {q t : String} {st1 : St}
    (h : wiki_search_first_title net st q = (some t, st1)) :
    titleOf st1.cache (pyStripS q) = some t ∧
      st1.summaryCalls = st.summaryCalls := by
  unfold wiki_search_first_title at h
  split at h
  · simp at h
  · split at h
    next t2 heq =>
      rw [Prod.mk.injEq] at h
      obtain ⟨h1, h2⟩ := h
      cases h1
      rw [← h2]
      exact ⟨heq, rfl⟩
    · split at h
      · simp at h
      · simp at h
      · rw [Prod.mk.injEq] at h
        obtain ⟨h1, h2⟩ := h
        cases h1
        rw [← h2]
        exact ⟨titleOf_setTitle_self _ _ _, rfl⟩

lemma search_cache_congr (net : Net) (q : String) (st st2 : St)
    (h : st.cache = st2.cache) :
    (wiki_search_first_title net st q).1 = (wiki_search_first_title net st2 q).1 ∧
      (wiki_search_first_title net st q).2.cache =
        (wiki_search_first_title net st2 q).2.cache := by
  by_cases hq : pyStripS q = ""
  · simp [wiki_search_first_title, hq, h]
  · cases htl : titleOf st2.cache (pyStripS q) with
    | some t => simp [wiki_search_first_title, hq, h, htl]
    | none =>
      cases hns : net.search (pyStripS q) with
      | none => simp [wiki_search_first_title, hq, h, htl, hns]
      | some ts =>
        cases ts with
        | nil => simp [wiki_search_first_title, hq, h, htl, hns]
        | cons t rest => simp [wiki_search_first_title, hq, h, htl, hns]

lemma search_preserves_titleOf {net : Net} {st : St} {q k v : String}
    (h : titleOf st.cache k = some v) :
    titleOf (wiki_search_first_title net st q).2.cache k = some v := by
  by_cases hq : pyStripS q = ""
  · simpa [wiki_search_first_title, hq] using h
  · cases htl : titleOf st.cache (pyStripS q) with
    | some t => simpa [wiki_search_first_title, hq, htl] using h
    | none =>
      cases hns : net.search (pyStripS q) with
      | none => simpa [wiki_search_first_title, hq, htl, hns] using h
      | some ts =>
        cases ts with
        | nil => simpa [wiki_search_first_title, hq, htl, hns] using h
        | cons t rest =>
          simp only [wiki_search_first_title, hq, htl, hns, if_neg hq]
          by_cases hk : k = pyStripS q
          · subst hk; rw [htl] at h; simp at h
          · simpa [titleOf, cacheFind?_setTitle_ne _ _ _ _ hk] using h

lemma search_preserves_summaryOf (net : Net) (st : St) (q k : String) :
    summaryOf (wiki_search_first_title net st q).2.cache k =
      summaryOf st.cache k := by
  by_cases hq : pyStripS q = ""
  · simp [wiki_search_first_title, hq]
  · cases htl : titleOf st.cache (pyStripS q) with
    | some t => simp [wiki_search_first_title, hq, htl]
    | none =>
      cases hns : net.search (pyStripS q) with
      | none => simp [wiki_search_first_title, hq, htl, hns]
      | some ts =>
        cases ts with
        | nil => simp [wiki_search_first_title, hq, htl, hns]
        | cons t rest =>
          simp [wiki_search_first_title, hq, htl, hns, summaryOf_setTitle]

lemma summary_cached {net : Net} {st : St} {t s : String}
    (ht : t ≠ "") (h : summaryOf st.cache t = some s) :
    wiki_get_summary net st t = (some s, st) := by
  unfold wiki_get_summary
  rw [if_neg ht, h]

lemma summary_none_state {net : Net} {st : St} {t : String} {st1 : St}
    (h : wiki_get_summary net st t = (none, st1)) :
    st1.cache = st.cache ∧ st1.searchCalls = st.searchCalls := by
  unfold wiki_get_summary at h
  split at h
  · cases h; exact ⟨rfl, rfl⟩
  · split at h
    · simp at h
    · split at h
      · cases h; exact ⟨rfl, rfl⟩
      · cases h; exact ⟨rfl, rfl⟩
      · split at h
        · cases h; exact ⟨rfl, rfl⟩
        · simp at h

lemma summary_some {net : Net} {st : St} {t s : String} {st2 : St}
    (h : wiki_get_summary net st t = (some s, st2)) :
    t ≠ "" ∧ summaryOf st2.cache t = some s ∧
      st2.searchCalls = st.searchCalls := by
  unfold wiki_get_summary at h
  split at h
  · simp at h
  next ht =>
    split at h
    next s2 heq =>
      rw [Prod.mk.injEq] at h
      obtain ⟨h1, h2⟩ := h
      cases h1
      rw [← h2]
      exact ⟨ht, heq, rfl⟩
    · split at h
      · simp at h
      · simp at h
      · split at h
        · simp at h
        · rw [Prod.mk.injEq] at h
          obtain ⟨h1, h2⟩ := h
          cases h1
          rw [← h2]
          exact ⟨ht, summaryOf_setSummary_self _ _ _, rfl⟩

lemma summary_cache_congr (net : Net) (t : String) (st st2 : St)
    (h : st.cache = st2.cache) :
    (wiki_get_summary net st t).1 = (wiki_get_summary net st2 t).1 ∧
      (wiki_get_summary net st t).2.cache =
        (wiki_get_summary net st2 t).2.cache := by
  by_cases ht : t = ""
  · simp [wiki_get_summary, ht, h]
  · cases hsm : summaryOf st2.cache t with
    | some s => simp [wiki_get_summary, ht, h, hsm]
    | none =>
      cases hns : net.summary t with
      | none => simp [wiki_get_summary, ht, h, hsm, hns]
      | some ext =>
        cases ext with
        | none => simp [wiki_get_summary, ht, h, hsm, hns]
        | some s =>
          by_cases hs : s = "" <;>
            simp [wiki_get_summary, ht, h, hsm, hns, hs]

lemma summary_preserves_summaryOf {net : Net} {st : St} {t k v : String}
    (h : summaryOf st.cache k = some v) :
    summaryOf (wiki_get_summary net st t).2.cache k = some v := by
  by_cases ht : t = ""
  · simpa [wiki_get_summary, ht] using h
  · cases hsm : summaryOf st.cache t with
    | some s => simpa [wiki_get_summary, ht, hsm] using h
    | none =>
      cases hns : net.summary t with
      | none => simpa [wiki_get_summary, ht, hsm, hns] using h
      | some ext =>
        cases ext with
        | none => simpa [wiki_get_summary, ht, hsm, hns] using h
        | some s =>
          by_cases hs : s = ""
          · simpa [wiki_get_summary, ht, hsm, hns, hs] using h
          · simp only [wiki_get_summary, ht, hsm, hns, hs, if_neg ht]
            by_cases hk : k = t
            · subst hk; rw [hsm] at h; simp at h
            · simpa [summaryOf, cacheFind?_setSummary_ne _ _ _ _ hk] using h

lemma summary_preserves_titleOf (net : Net) (st : St) (t k : String) :
    titleOf (wiki_get_summary net st t).2.cache k = titleOf st.cache k := by
  by_cases ht : t = ""
  · simp [wiki_get_summary, ht]
  · cases hsm : summaryOf st.cache t with
    | some s => simp [wiki_get_summary, ht, hsm]
    | none =>
      cases hns : net.summary t with
      | none => simp [wiki_get_summary, ht, hsm, hns]
      | some ext =>
        cases ext with
        | none => simp [wiki_get_summary, ht, hsm, hns]
        | some s =>
          by_cases hs : s = "" <;>
            simp [wiki_get_summary, ht, hsm, hns, hs, titleOf_setSummary]

/-! ### find? returns the first match, in list order -/

lemma find?_eq_of_first {α : Type} (p : α → Bool) :
    ∀ (l : List α) (i : Nat) (x : α), l.get? i = some x → p x = true →
      (∀ j y, j < i → l.get? j = some y → p y = false) →
      l.find? p = some x := by
  intro l
  induction l with
  | nil => intro i x h _ _; simp [List.get?] at h
  | cons a rest ih =>
    intro i x hget hp hbefore
    cases i with
    | zero =>
      simp [List.get?] at hget
      subst hget
      exact List.find?_cons_of_pos _ hp
    | succ n =>
      have ha : p a = false := hbefore 0 a (Nat.succ_pos n) rfl
      rw [List.find?_cons_of_neg _ (by simp [ha])]
      exact ih n x (by simpa [List.get?] using hget) hp
        (fun j y hj hy => hbefore (j + 1) y (Nat.succ_lt_succ hj)
          (by simpa [List.get?] using hy))

/-! ### A word standing alone anywhere in the text is found by search -/

lemma searchFrom_of_matchHere {nB nE : Bool} {alts : List (List Char)}
    {prev : Option Char} {s : List Char}
    (h : matchHere nB nE alts prev s = true) :
    searchFrom nB nE alts prev s = true := by
  cases s with
  | nil => simpa [searchFrom] using h
  | cons c rest => simp [searchFrom, h]

lemma matchHere_of_parts {alts : List (List Char)} {w post : List Char}
    {prev : Option Char} (hw : w ∈ alts)
    (hb : boundaryOk prev = true) (he : endBoundaryOk post = true) :
    matchHere true true alts prev (w ++ post) = true := by
  unfold matchHere
  rw [List.any_eq_true]
  refine ⟨w, hw, ?_⟩
  have h1 : w.isPrefixOf (w ++ post) = true :=
    List.isPrefixOf_iff_prefix.mpr (List.prefix_append w post)
  simp [hb, h1, List.drop_left, he]

lemma searchFrom_finds (alts : List (List Char)) (w post : List Char)
    (hw : w ∈ alts) (he : endBoundaryOk post = true) :
    ∀ (pre : List Char) (prev : Option Char),
      boundaryOk ((pre.getLast?).elim prev some) = true →
      searchFrom true true alts prev (pre ++ w ++ post) = true := by
  intro pre
  induction pre with
  | nil =>
    intro prev hb
    exact searchFrom_of_matchHere (matchHere_of_parts hw hb he)
  | cons c pre2 ih =>
    intro prev hb
    show searchFrom true true alts prev (c :: (pre2 ++ w ++ post)) = true
    have htail : searchFrom true true alts (some c) (pre2 ++ w ++ post) = true := by
      apply ih
      cases pre2 with
      | nil => simpa using hb
      | cons d pre3 =>
        obtain ⟨x, hx⟩ := Option.isSome_iff_exists.mp
          (by simp : ((d :: pre3).getLast?).isSome = true)
        rw [List.getLast?_cons_cons, hx] at hb
        rw [hx]
        exact hb
    rw [searchFrom]
    simp only [Bool.or_eq_true]
    exact Or.inr htail

/-! ### answer_query preserves cached values -/

lemma answer_preserves_titleOf {net : Net} {st : St} {inp k v : String}
    (h : titleOf st.cache k = some v) :
    titleOf (answer_query net st inp).2.cache k = some v := by
  by_cases h0 : pyStripS inp = ""
  · simpa [answer_query, h0] using h
  · cases hst : check_small_talk (pyStripS inp) with
    | some r => simpa [answer_query, h0, hst] using h
    | none =>
      rcases hs : wiki_search_first_title net st (pyStripS inp) with ⟨res, st1⟩
      have h1 : titleOf st1.cache k = some v := by
        have h2 := @search_preserves_titleOf net st (pyStripS inp) k v h
        rwa [hs] at h2
      cases res with
      | none => simpa [answer_query, h0, hst, hs] using h1
      | some t =>
        rcases hg : wiki_get_summary net st1 t with ⟨sres, st2⟩
        have h2 : titleOf st2.cache k = some v := by
          have h3 := summary_preserves_titleOf net st1 t k
          rw [hg] at h3
          rw [h3]
          exact h1
        cases sres with
        | none => simpa [answer_query, h0, hst, hs, hg] using h2
        | some s => simpa [answer_query, h0, hst, hs, hg] using h2

lemma answer_preserves_summaryOf {net : Net} {st : St} {inp k v : String}
    (h : summaryOf st.cache k = some v) :
    summaryOf (answer_query net st inp).2.cache k = some v := by
  by_cases h0 : pyStripS inp = ""
  · simpa [answer_query, h0] using h
  · cases hst : check_small_talk (pyStripS inp) with
    | some r => simpa [answer_query, h0, hst] using h
    | none =>
      rcases hs : wiki_search_first_title net st (pyStripS inp) with ⟨res, st1⟩
      have h1 : summaryOf st1.cache k = some v := by
        have h2 := search_preserves_summaryOf net st (pyStripS inp) k
        rw [hs] at h2
        rw [h2]
        exact h
      cases res with
      | none => simpa [answer_query, h0, hst, hs] using h1
      | some t =>
        rcases hg : wiki_get_summary net st1 t with ⟨sres, st2⟩
        have h2 : summaryOf st2.cache k = some v := by
          have h3 := @summary_preserves_summaryOf net st1 t k v h1
          rwa [hg] at h3
        cases sres with
        | none => simpa [answer_query, h0, hst, hs, hg] using h2
        | some s => simpa [answer_query, h0, hst, hs, hg] using h2

/-! ### Replaying the same query yields the identical answer -/

lemma answer_replay_eq (net : Net) (st : St) (q : String) :
    (answer_query net (answer_query net st q).2 q).1 =
      (answer_query net st q).1 := by
  by_cases h0 : pyStripS q = ""
  · simp [answer_query, h0]
  · cases hst : check_small_talk (pyStripS q) with
    | some r => simp [answer_query, h0, hst]
    | none =>
      rcases hs : wiki_search_first_title net st (pyStripS q) with ⟨res, st1⟩
      cases res with
      | none =>
        obtain ⟨hc, _⟩ := search_none_state hs
        rcases hs2 : wiki_search_first_title net st1 (pyStripS q) with ⟨res2, st2⟩
        have hres2 : res2 = none := by
          have h2 := (search_cache_congr net (pyStripS q) st1 st hc).1
          rw [hs2, hs] at h2
          simpa using h2
        subst hres2
        simp [answer_query, h0, hst, hs, hs2]
      | some t =>
        obtain ⟨ht1, _⟩ := search_some_title hs
        rw [pyStripS_idem] at ht1
        rcases hg : wiki_get_summary net st1 t with ⟨sres, st2⟩
        cases sres with
        | none =>
          obtain ⟨hc2, _⟩ := summary_none_state hg
          have hhit : wiki_search_first_title net st2 (pyStripS q) = (some t, st2) := by
            apply search_cached (by rw [pyStripS_idem]; exact h0)
            rw [pyStripS_idem, hc2]
            exact ht1
          rcases hg2 : wiki_get_summary net st2 t with ⟨sres2, st3⟩
          have hres2 : sres2 = none := by
            have h2 := (summary_cache_congr net t st2 st1 hc2).1
            rw [hg2, hg] at h2
            simpa using h2
          subst hres2
          simp [answer_query, h0, hst, hs, hg, hhit, hg2]
        | some s =>
          obtain ⟨htne, hsum2, _⟩ := summary_some hg
          have ht2 : titleOf st2.cache (pyStripS q) = some t := by
            have h3 := summary_preserves_titleOf net st1 t (pyStripS q)
            rw [hg] at h3
            rw [h3]
            exact ht1
          have hhit : wiki_search_first_title net st2 (pyStripS q) = (some t, st2) := by
            apply search_cached (by rw [pyStripS_idem]; exact h0)
            rw [pyStripS_idem]
            exact ht2
          have hhit2 : wiki_get_summary net st2 t = (some s, st2) :=
            summary_cached htne hsum2
          simp [answer_query, h0, hst, hs, hg, hhit, hhit2]

/-! ### The claims -/

/-- C1: `answer_query` always returns a string (it is a total function on
its state and input), and every failure of a remote call is caught and
downgraded: a failed or empty search response (exception, or no titles)
yields the fixed no-match answer, and a failed or empty summary response
(exception, missing extract, or empty extract) yields the
title-found-but-no-summary answer; no failure propagates. -/
theorem answer_query_never_raises (net : Net) (st : St) (inp : String) :
    (∃ out stf, answer_query net st inp = (out, stf)) ∧
    (pyStripS inp ≠ "" → check_small_talk (pyStripS inp) = none →
      titleOf st.cache (pyStripS inp) = none →
      (net.search (pyStripS inp) = none ∨ net.search (pyStripS inp) = some []) →
      answer_query net st inp =
        (MSG_NOMATCH, ⟨st.cache, st.searchCalls + 1, st.summaryCalls⟩)) ∧
    (∀ t st1, pyStripS inp ≠ "" → check_small_talk (pyStripS inp) = none →
      wiki_search_first_title net st (pyStripS inp) = (some t, st1) →
      summaryOf st1.cache t = none → t ≠ "" →
      (net.summary t = none ∨ net.summary t = some none ∨
        net.summary t = some (some "")) →
      answer_query net st inp =
        (fallbackMsg t (mkLink t),
         ⟨st1.cache, st1.searchCalls, st1.summaryCalls + 1⟩)) := by
  refine ⟨⟨(answer_query net st inp).1, (answer_query net st inp).2, rfl⟩, ?_, ?_⟩
  · intro h1 h2 h3 h4
    have hs : wiki_search_first_title net st (pyStripS inp) =
        (none, ⟨st.cache, st.searchCalls + 1, st.summaryCalls⟩) := by
      unfold wiki_search_first_title
      rw [pyStripS_idem, if_neg h1, h3]
      rcases h4 with h4 | h4 <;> rw [h4]
    simp [answer_query, h1, h2, hs]
  · intro t st1 h1 h2 hsearch h3 ht h4
    have hg : wiki_get_summary net st1 t =
        (none, ⟨st1.cache, st1.searchCalls, st1.summaryCalls + 1⟩) := by
      rcases h4 with h4 | h4 | h4 <;> simp [wiki_get_summary, ht, h3, h4]
    simp [answer_query, h1, h2, hsearch, hg]

/-- Witness for C1 at a concrete failing network and query. -/
theorem answer_query_never_raises_wit :
    answer_query failNet initSt "gravity" =
      (MSG_NOMATCH, ⟨[], 1, 0⟩) := by
  have h := (answer_query_never_raises failNet initSt "gravity").2.1
    (by decide) (by decide) (by decide) (Or.inl rfl)
  exact h

/-- C2: cache memoization invariant: a title or summary value already
stored under a key is still stored unchanged after any `answer_query`
call, and a lookup whose key is cached returns the cached value with the
state unchanged (in particular, no remote request is issued). -/
theorem cache_write_once (net : Net) (st : St) (inp q t s k v : String) :
    (titleOf st.cache k = some v →
      titleOf (answer_query net st inp).2.cache k = some v) ∧
    (summaryOf st.cache k = some v →
      summaryOf (answer_query net st inp).2.cache k = some v) ∧
    (pyStripS q ≠ "" → titleOf st.cache (pyStripS q) = some t →
      wiki_search_first_title net st q = (some t, st)) ∧
    (t ≠ "" → summaryOf st.cache t = some s →
      wiki_get_summary net st t = (some s, st)) :=
  ⟨answer_preserves_titleOf, answer_preserves_summaryOf,
   fun hq h => search_cached hq h,
   fun ht h => summary_cached ht h⟩

/-- Witness for C2: a cached title is served unchanged without a remote
request, even on a failing network. -/
theorem cache_write_once_wit :
    wiki_search_first_title failNet
        ⟨[("photosynthesis", ⟨some "Photosynthesis", none⟩)], 0, 0⟩
        "photosynthesis" =
      (some "Photosynthesis",
       ⟨[("photosynthesis", ⟨some "Photosynthesis", none⟩)], 0, 0⟩) := by
  exact (cache_write_once failNet
      ⟨[("photosynthesis", ⟨some "Photosynthesis", none⟩)], 0, 0⟩
      "x" "photosynthesis" "Photosynthesis" "x" "x" "x").2.2.1
    (by decide) (by decide)

/-- C4: on an input matching a small-talk rule, where every earlier rule
in the declared order does not match, `answer_query` returns exactly that
rule's first reply and leaves the state unchanged: no remote call is
made and no cache entry is written, whatever the network does. -/
theorem small_talk_first_reply (net : Net) (st : St) (inp : String)
    (i : Nat) (rule : Rule)
    (hne : pyStripS inp ≠ "")
    (hget : SMALL_TALK.get? i = some rule)
    (hmatch : rule.matcher (pyStripS inp) = true)
    (hfirst : ∀ j rule2, j < i → SMALL_TALK.get? j = some rule2 →
      rule2.matcher (pyStripS inp) = false) :
    answer_query net st inp = (rule.replies.headD "", st) := by
  have hfind : SMALL_TALK.find? (fun r => r.matcher (pyStripS inp)) = some rule :=
    find?_eq_of_first _ SMALL_TALK i rule hget hmatch hfirst
  have hsm : check_small_talk (pyStripS inp) = some (rule.replies.headD "") := by
    unfold check_small_talk
    rw [hfind]
    rfl
  simp [answer_query, hne, hsm]

/-- Witness for C4: "hello" triggers the greeting rule on a dead
network, and the state is untouched. -/
theorem small_talk_first_reply_wit :
    answer_query failNet initSt "hello" = ("Hi!", initSt) := by
  have h := small_talk_first_reply failNet initSt "hello" 0 r_greeting
    (by decide) rfl (by decide)
    (fun j rule2 hj _ => absurd hj (Nat.not_lt_zero j))
  exact h

/-- C5: when title resolution returns no title, `answer_query` returns
the fixed no-match message with the search result state: the cache is
unchanged and the summary collaborator receives no request. -/
theorem no_title_skips_summary (net : Net) (st st1 : St) (inp : String)
    (hne : pyStripS inp ≠ "")
    (hsm : check_small_talk (pyStripS inp) = none)
    (hs : wiki_search_first_title net st (pyStripS inp) = (none, st1)) :
    answer_query net st inp = (MSG_NOMATCH, st1) ∧
      st1.cache = st.cache ∧ st1.summaryCalls = st.summaryCalls := by
  obtain ⟨h1, h2⟩ := search_none_state hs
  exact ⟨by simp [answer_query, hne, hsm, hs], h1, h2⟩

/-- Witness for C5 on a failing network. -/
theorem no_title_skips_summary_wit :
    answer_query failNet initSt "photosynthesis" =
      (MSG_NOMATCH, ⟨[], 1, 0⟩) := by
  exact (no_title_skips_summary failNet initSt ⟨[], 1, 0⟩ "photosynthesis"
    (by decide) (by decide) (by decide)).1

/-- C6: on empty or whitespace-only input, `answer_query` returns the
fixed prompt message and the state — cache and request counters — is
exactly the input state: no remote call, no cache write. -/
theorem empty_input_prompt (net : Net) (st : St) (inp : String)
    (h : pyStripS inp = "") :
    answer_query net st inp = (MSG_EMPTY, st) := by
  simp [answer_query, h]

/-- Witness for C6 on whitespace-only input. -/
theorem empty_input_prompt_wit :
    answer_query failNet initSt " \t " = (MSG_EMPTY, initSt) :=
  empty_input_prompt failNet initSt " \t " (by decide)

/-- C3 counterexample: with a deterministic network whose summary
endpoint is down, two identical calls issue two summary requests in
total — the first failure is not cached, so the claimed "at most one
summary call in total" is false as stated. -/
theorem respond_idempotent_cex :
    ((answer_query (downSummaryNet "Photosynthesis")
        ((answer_query (downSummaryNet "Photosynthesis") initSt
          "photosynthesis").2)
        "photosynthesis").2).summaryCalls = 2 := by decide

/-- C3 amended: the second identical call always returns a
character-identical answer; and when the first call resolves a title and
obtains a nonempty summary, the session issues at most one
title-resolution call and at most one summary call in total (the second
call is served entirely from the cache).  Only a failed remote call is
re-issued on the second invocation, since failures are not cached. -/
theorem respond_idempotent_amended (net : Net) (st : St)
    (q t s : String) (ts : List String) :
    ((answer_query net (answer_query net st q).2 q).1 =
      (answer_query net st q).1) ∧
    (pyStripS q ≠ "" → check_small_talk (pyStripS q) = none →
      net.search (pyStripS q) = some (t :: ts) → t ≠ "" →
      net.summary t = some (some s) → s ≠ "" →
      (answer_query net (answer_query net initSt q).2 q).2.searchCalls ≤ 1 ∧
      (answer_query net (answer_query net initSt q).2 q).2.summaryCalls ≤ 1) := by
  refine ⟨answer_replay_eq net st q, ?_⟩
  intro h1 h2 hsr ht hsm hsne
  have hs1 : wiki_search_first_title net initSt (pyStripS q) =
      (some t, ⟨setTitle [] (pyStripS q) t, 1, 0⟩) := by
    unfold wiki_search_first_title
    rw [pyStripS_idem, if_neg h1]
    have hmiss : titleOf initSt.cache (pyStripS q) = none := rfl
    rw [hmiss, hsr]
    rfl
  have hmiss2 : summaryOf (setTitle [] (pyStripS q) t) t = none := by
    by_cases he : pyStripS q = t <;>
      simp [setTitle, summaryOf, cacheFind?, he]
  have hg1 : wiki_get_summary net ⟨setTitle [] (pyStripS q) t, 1, 0⟩ t =
      (some s, ⟨setSummary (setTitle [] (pyStripS q) t) t s, 1, 1⟩) := by
    simp [wiki_get_summary, ht, hmiss2, hsm, hsne]
  have hans1 : answer_query net initSt q =
      (successMsg t (short_sentences s 2) (mkLink t),
       ⟨setSummary (setTitle [] (pyStripS q) t) t s, 1, 1⟩) := by
    simp [answer_query, h1, h2, hs1, hg1]
  have ht2 : titleOf (setSummary (setTitle [] (pyStripS q) t) t s)
      (pyStripS q) = some t := by
    rw [titleOf_setSummary]
    exact titleOf_setTitle_self _ _ _
  have hsum2 : summaryOf (setSummary (setTitle [] (pyStripS q) t) t s) t =
      some s := summaryOf_setSummary_self _ _ _
  have hhit : wiki_search_first_title net
      ⟨setSummary (setTitle [] (pyStripS q) t) t s, 1, 1⟩ (pyStripS q) =
      (some t, ⟨setSummary (setTitle [] (pyStripS q) t) t s, 1, 1⟩) := by
    apply search_cached (by rw [pyStripS_idem]; exact h1)
    rw [pyStripS_idem]
    exact ht2
  have hhit2 : wiki_get_summary net
      ⟨setSummary (setTitle [] (pyStripS q) t) t s, 1, 1⟩ t =
      (some s, ⟨setSummary (setTitle [] (pyStripS q) t) t s, 1, 1⟩) :=
    summary_cached ht hsum2
  have hans2 : answer_query net (answer_query net initSt q).2 q =
      (successMsg t (short_sentences s 2) (mkLink t),
       ⟨setSummary (setTitle [] (pyStripS q) t) t s, 1, 1⟩) := by
    rw [hans1]
    simp [answer_query, h1, h2, hhit, hhit2]
  rw [hans2]
  exact ⟨le_refl 1, le_refl 1⟩

/-- Witness for C3 amended: a healthy network, queried twice. -/
theorem respond_idempotent_amended_wit :
    (answer_query (okNet "Photosynthesis" "P. Q. R.")
        ((answer_query (okNet "Photosynthesis" "P. Q. R.") initSt
          "photosynthesis").2)
        "photosynthesis").2.searchCalls ≤ 1 ∧
    (answer_query (okNet "Photosynthesis" "P. Q. R.")
        ((answer_query (okNet "Photosynthesis" "P. Q. R.") initSt
          "photosynthesis").2)
        "photosynthesis").2.summaryCalls ≤ 1 := by
  exact (respond_idempotent_amended (okNet "Photosynthesis" "P. Q. R.")
      initSt "photosynthesis" "Photosynthesis" "P. Q. R." []).2
    (by decide) (by decide) (by decide) (by decide) (by decide) (by decide)

/-- C7: when a title and a summary are obtained, the answer is the
formatted message containing the summary truncated by `short_sentences`
to its first two sentences; on the three-sentence summary "A. B. C."
the truncation is exactly "A. B.", and the formatted answer contains
"A. B." but not "C.". -/
theorem summary_truncation (net : Net) (st st1 st2 : St) (inp t s : String)
    (hne : pyStripS inp ≠ "")
    (hsm : check_small_talk (pyStripS inp) = none)
    (hs : wiki_search_first_title net st (pyStripS inp) = (some t, st1))
    (hg : wiki_get_summary net st1 t = (some s, st2)) :
    answer_query net st inp =
      (successMsg t (short_sentences s 2) (mkLink t), st2) ∧
    short_sentences "A. B. C." 2 = "A. B." ∧
    "A. B.".data <:+:
      (successMsg "Water" (short_sentences "A. B. C." 2) (mkLink "Water")).data ∧
    ¬ "C.".data <:+:
      (successMsg "Water" (short_sentences "A. B. C." 2) (mkLink "Water")).data := by
  exact ⟨by simp [answer_query, hne, hsm, hs, hg], by decide, by decide,
    by decide⟩

/-- Witness for C7 on a healthy network delivering "A. B. C.". -/
theorem summary_truncation_wit :
    answer_query (okNet "Water" "A. B. C.") initSt "water cycle" =
      (successMsg "Water" (short_sentences "A. B. C." 2) (mkLink "Water"),
       ⟨[("water cycle", ⟨some "Water", none⟩),
         ("Water", ⟨none, some "A. B. C."⟩)], 1, 1⟩) := by
  exact (summary_truncation (okNet "Water" "A. B. C.") initSt
      ⟨[("water cycle", ⟨some "Water", none⟩)], 1, 0⟩
      ⟨[("water cycle", ⟨some "Water", none⟩),
        ("Water", ⟨none, some "A. B. C."⟩)], 1, 1⟩
      "water cycle" "Water" "A. B. C."
      (by decide) (by decide) (by decide) (by decide)).1

/-- C8: when a title is resolved but no summary is obtained, the answer
is the fallback message, which contains the resolved title, contains the
constructed reference link, and contains the phrase saying the summary
could not be fetched. -/
theorem no_summary_fallback (net : Net) (st st1 st2 : St) (inp t : String)
    (hne : pyStripS inp ≠ "")
    (hsm : check_small_talk (pyStripS inp) = none)
    (hs : wiki_search_first_title net st (pyStripS inp) = (some t, st1))
    (hg : wiki_get_summary net st1 t = (none, st2)) :
    answer_query net st inp = (fallbackMsg t (mkLink t), st2) ∧
    t.data <:+: (fallbackMsg t (mkLink t)).data ∧
    (mkLink t).data <:+: (fallbackMsg t (mkLink t)).data ∧
    "lekin short summary fetch nahi hui".data <:+:
      (fallbackMsg t (mkLink t)).data := by
  refine ⟨by simp [answer_query, hne, hsm, hs, hg], ?_, ?_, ?_⟩
  · exact ⟨"Maine ek page dhoondh liya: ".data,
      (" " ++ EMD ++ " lekin short summary fetch nahi hui.\n" ++
        "Aap full article yahan dekh sakte hain: " ++ mkLink t).data,
      by simp [fallbackMsg, String.data_append, List.append_assoc]⟩
  · refine List.IsSuffix.isInfix ?_
    refine ⟨("Maine ek page dhoondh liya: " ++ t ++ " " ++ EMD ++
      " lekin short summary fetch nahi hui.\n" ++
      "Aap full article yahan dekh sakte hain: ").data, ?_⟩
    rw [← String.data_append]
    rfl
  · have hA : "lekin short summary fetch nahi hui".data <:+:
        " lekin short summary fetch nahi hui.\n".data := by decide
    refine hA.trans ?_
    exact ⟨("Maine ek page dhoondh liya: " ++ t ++ " " ++ EMD).data,
      ("Aap full article yahan dekh sakte hain: " ++ mkLink t).data,
      by simp [fallbackMsg, String.data_append, List.append_assoc]⟩

/-- Witness for C8 on a network whose summary endpoint is down. -/
theorem no_summary_fallback_wit :
    answer_query (downSummaryNet "Water") initSt "water" =
      (fallbackMsg "Water" (mkLink "Water"),
       ⟨[("water", ⟨some "Water", none⟩)], 1, 1⟩) := by
  exact (no_summary_fallback (downSummaryNet "Water") initSt
      ⟨[("water", ⟨some "Water", none⟩)], 1, 0⟩
      ⟨[("water", ⟨some "Water", none⟩)], 1, 1⟩ "water" "Water"
      (by decide) (by decide) (by decide) (by decide)).1

/-- C9: whenever a title is resolved, the produced answer (with or
without a summary) contains the constructed link for that title; the
link replaces spaces by underscores and percent-encodes the result, so
for "Albert Einstein" it ends in "Albert_Einstein" and holds no raw
space character. -/
theorem link_construction (net : Net) (st st1 : St) (inp t : String)
    (hne : pyStripS inp ≠ "")
    (hsm : check_small_talk (pyStripS inp) = none)
    (hs : wiki_search_first_title net st (pyStripS inp) = (some t, st1)) :
    (mkLink t).data <:+: (answer_query net st inp).1.data ∧
    mkLink "Albert Einstein" =
      "https://en.wikipedia.org/wiki/Albert_Einstein" ∧
    "Albert_Einstein".data <:+ (mkLink "Albert Einstein").data ∧
    ' ' ∉ (mkLink "Albert Einstein").data := by
  refine ⟨?_, by decide, by decide, by decide⟩
  rcases hg : wiki_get_summary net st1 t with ⟨sres, st2⟩
  cases sres with
  | some s =>
    have hans : (answer_query net st inp).1 =
        successMsg t (short_sentences s 2) (mkLink t) := by
      simp [answer_query, hne, hsm, hs, hg]
    rw [hans]
    refine List.IsSuffix.isInfix ?_
    refine ⟨("**" ++ t ++ "**\n" ++ short_sentences s 2 ++
      "\n\nAgar aur padhna ho: ").data, ?_⟩
    rw [← String.data_append]
    rfl
  | none =>
    have hans : (answer_query net st inp).1 = fallbackMsg t (mkLink t) := by
      simp [answer_query, hne, hsm, hs, hg]
    rw [hans]
    refine List.IsSuffix.isInfix ?_
    refine ⟨("Maine ek page dhoondh liya: " ++ t ++ " " ++ EMD ++
      " lekin short summary fetch nahi hui.\n" ++
      "Aap full article yahan dekh sakte hain: ").data, ?_⟩
    rw [← String.data_append]
    rfl

/-- Witness for C9: the link for the resolved title appears in the
answer produced for a concrete query. -/
theorem link_construction_wit :
    (mkLink "Mercury").data <:+:
      (answer_query (downSummaryNet "Mercury") initSt "mercury").1.data := by
  exact (link_construction (downSummaryNet "Mercury") initSt
      ⟨[("mercury", ⟨some "Mercury", none⟩)], 1, 0⟩ "mercury" "Mercury"
      (by decide) (by decide) (by decide)).1

/-- C10: small-talk matching is a word search inside the text, not a
whole-message match: any input whose (stripped, case-folded) text
contains "hello" as a standalone word — whatever surrounds it — gets the
greeting rule's first canned reply, with the state unchanged: no remote
lookup and no cache mutation. -/
theorem small_talk_substring (net : Net) (st : St) (inp : String)
    (pre post : List Char)
    (hdec : lower (pyStripS inp).data = pre ++ "hello".data ++ post)
    (hb : boundaryOk pre.getLast? = true)
    (he : endBoundaryOk post = true) :
    answer_query net st inp = ("Hi!", st) := by
  have hne : pyStripS inp ≠ "" := by
    intro h
    rw [h] at hdec
    have hlen := congrArg List.length hdec
    simp [lower] at hlen
    omega
  have hw : "hello".data ∈ (["hi", "hello", "hey", "hiya", "hlo"].map
      String.data) := by decide
  have hbnd : boundaryOk ((pre.getLast?).elim none some) = true := by
    cases hp : pre.getLast? with
    | none => rfl
    | some c => rw [hp] at hb; exact hb
  have hmatch : r_greeting.matcher (pyStripS inp) = true := by
    show wordsMatcher ["hi", "hello", "hey", "hiya", "hlo"] (pyStripS inp) = true
    unfold wordsMatcher reSearch
    rw [hdec]
    exact searchFrom_finds _ "hello".data post hw he pre none hbnd
  have hfind : check_small_talk (pyStripS inp) = some "Hi!" := by
    have hfd : List.find? (fun r => r.matcher (pyStripS inp))
        [r_greeting, r_howare, r_imfine, r_thanks, r_farewell, r_help] =
        some r_greeting := List.find?_cons_of_pos _ hmatch
    unfold check_small_talk SMALL_TALK
    rw [hfd]
    rfl
  simp [answer_query, hne, hfind]

/-- Witness for C10: "who is hello kitty" is answered by the greeting
reply even though it reads as an encyclopedia query. -/
theorem small_talk_substring_wit :
    answer_query failNet initSt "who is hello kitty" = ("Hi!", initSt) := by
  exact small_talk_substring failNet initSt "who is hello kitty"
    "who is ".data " kitty".data (by decide) (by decide) (by decide)

end Chatbot
